import Mathlib

/-!
Verification of the asynchronous job-orchestration core of miloAgentServices:
the session store (sessionManager), the chorus-study status poller, the job
submission gateway with its in-flight registry, the fan-out dispatcher, the
expansion stage and the tool-use single-call loop.

Shallow embedding conventions:
* JS objects become Lean structures; a JS field that can be `undefined` is an
  `Option`; the JS pattern `x || d` on strings is `jsStringOr` (empty string is
  falsy in JS).
* The on-disk session directory is a function `String → FileState`; writing a
  file is a pointwise update of that function.
* JS numbers used for money are embedded as `Rat` (exact arithmetic standing
  in for IEEE doubles; none of the verified properties depends on rounding).
* External calls (the model API, the SDK) are inputs to the embedded
  functions: the behaviour of one participant call is a parameter, so the code
  under verification is exactly the orchestration logic of the repository.
-/

namespace MiloAgent

/-- JS `x || d` for an optional string field: `undefined` and the empty
string are falsy and fall back to the default. -/
def jsStringOr (x : Option String) (d : String) : String :=
  match x with
  | none => d
  | some s => if s = "" then d else s

/-- JS truthiness of an optional string: `undefined` and `""` are falsy. -/
def jsTruthyStr (x : Option String) : Bool :=
  match x with
  | none => false
  | some s => s ≠ ""

/-- Cost record `{inputTokens, outputTokens, usd}` as produced per call and
per turn (fanOut-direct.mjs, sessionManager.js `buildTurnFromResults`). -/
structure Cost where
  inputTokens : Nat
  outputTokens : Nat
  usd : Rat
deriving Repr, DecidableEq, Inhabited

/-- The zero cost `{inputTokens: 0, outputTokens: 0, usd: 0}`. -/
def Cost.zero : Cost := { inputTokens := 0, outputTokens := 0, usd := 0 }

/-- A session-level `totalCost` object. `createNewSession` stores all three
fields; `appendTurnToSession` rebuilds the object with only a `usd` field
(sessionManager.js line 241), so the token fields are `Option`s. -/
structure SessionCost where
  inputTokens : Option Nat
  outputTokens : Option Nat
  usd : Rat
deriving Repr, DecidableEq, Inhabited

/-- View a full per-turn cost as a session cost with all three fields set
(what `createNewSession` stores, since it copies `turn.totalCost`). -/
def Cost.toSessionCost (c : Cost) : SessionCost :=
  { inputTokens := some c.inputTokens, outputTokens := some c.outputTokens, usd := c.usd }

/-- One turn of a session. The payload fields not consulted by the verified
orchestration logic (expansion record, perspectives, synthesis, timestamps)
are collapsed into `prompt`; `turnNumber` and `totalCost` are the fields the
gateway, status poller and session-cost invariant actually read. -/
structure Turn where
  turnNumber : Nat
  prompt : String
  totalCost : Cost
deriving Repr, DecidableEq, Inhabited

/-- The per-session prompt configuration copied by `createNewSession`. -/
structure PromptConfig where
  firstPromptName : String
  perspectives : Nat
  summarize : Bool
deriving Repr, DecidableEq, Inhabited

/-- The model/driver metadata copied by `createNewSession`. -/
structure SessionConfigMeta where
  expandModel : String
  agentModel : String
  driver : String
  perspectives : Nat
deriving Repr, DecidableEq, Inhabited

/-- A parsed session file. JS session records are dynamic objects: the
manager-written records carry `turns` and `totalCost`; the error records
written by the gateway's close handler carry `status`, `error` and
`failedAt` with `turns: []`. Fields that either writer may omit are
`Option`s, matching what `JSON.parse` can yield for the status poller. -/
structure Session where
  sessionName : String
  createdAt : Option String
  updatedAt : Option String
  promptConfig : Option PromptConfig
  configMeta : Option SessionConfigMeta
  status : Option String
  error : Option String
  failedAt : Option String
  turns : Option (List Turn)
  totalCost : Option SessionCost
deriving Repr, DecidableEq, Inhabited

/-- State of one path in the session directory: no file, a file whose
content `JSON.parse` rejects, or a file parsing to a session record. -/
inductive FileState where
  | absent
  | corrupt
  | parsed (data : Session)
deriving Repr, DecidableEq, Inhabited

/-- The session directory, one file per session name. -/
def SessionDir := String → FileState

/-! ## Session Store (sessionManager.js, src/unnamed/part_013) -/

/-- `createNewSession` (part_013 lines 214-237): a fresh session whose
`turns` array holds exactly the given turn and whose `totalCost` is that
turn's `totalCost` object. -/
def createNewSession (sessionName : String) (now : String)
    (promptConfig : PromptConfig) (configMeta : SessionConfigMeta)
    (turn : Turn) : Session :=
  { sessionName := sessionName
    createdAt := some now
    updatedAt := some now
    promptConfig := some promptConfig
    configMeta := some configMeta
    status := none
    error := none
    failedAt := none
    turns := some [turn]
    totalCost := some turn.totalCost.toSessionCost }

/-- `appendTurnToSession` (part_013 lines 239-245): pushes the turn and
rebuilds `session.totalCost` as an object holding ONLY a `usd` field,
the reduce of the turns' `totalCost.usd`.

JS notes: `session.turns.push` assumes `turns` is present (every session
this module produces carries it); the reduce guard `t.totalCost ? ... : 0`
never fires on turns built by this module, whose `totalCost` is always set,
so the embedded `Turn.totalCost` is non-optional. -/
def appendTurnToSession (session : Session) (turn : Turn) : Session :=
  let newTurns := session.turns.getD [] ++ [turn]
  { session with
    turns := some newTurns
    totalCost := some
      { inputTokens := none
        outputTokens := none
        usd := newTurns.foldl (fun s t => s + t.totalCost.usd) 0 } }

/-- `saveSession` (part_013 lines 61-67): stamps `updatedAt` and writes the
record to `SESSION_DIR/sessionName.json`, overwriting any previous file of
that name. -/
def saveSession (session : Session) (now : String) (dir : SessionDir) : SessionDir :=
  fun n =>
    if n = session.sessionName then .parsed { session with updatedAt := some now }
    else dir n

/-! ## Status Poller (chorus-study-status access point, src/unnamed/part_009) -/

/-- The `statusResult` object built by the status access point. -/
inductive StatusResult where
  | running (sessionName : String) (expectedTurn : Nat) (completedTurns : Nat)
  | error (sessionName : String) (message : String)
  | complete (sessionName : String) (turnNumber : Nat) (result : Turn)
deriving Repr, DecidableEq, Inhabited

/-- Pipeline stage 2 of the chorus-study-status service function (part_009
lines 66-132), after stage 1 has validated `sessionName ≠ ""` and
`turnNumber ≥ 1`. A pure function of the file state: the source performs
only `fs.existsSync`/`fs.readFileSync`, no writes. -/
def chorusStudyStatus (file : FileState) (sessionName : String)
    (turnNumber : Nat) : StatusResult :=
  match file with
  | .absent => .running sessionName turnNumber 0
  | .corrupt => .error sessionName "corrupt session file"
  | .parsed sessionData =>
    if sessionData.status = some "error" then
      .error sessionName (jsStringOr sessionData.error "unknown error")
    else
      let turns := sessionData.turns.getD []
      if turnNumber ≤ turns.length then
        .complete sessionName turnNumber (turns.getD (turnNumber - 1) default)
      else
        .running sessionName turnNumber turns.length

/-! ## Job Submission Gateway (submit-chorus-study.js) -/

/-- A request body in the qtools command-line-parameters shape:
`{switches, values, fileList}` where `values` maps a key to an array of
strings (`qtGetSurePath('values.key', [undefined])[0]` reads the head). -/
structure RequestBody where
  switches : List (String × Bool)
  values : List (String × List String)
  fileList : List String
deriving Repr, DecidableEq, Inhabited

/-- Read `values.key[0]`, the qtGetSurePath access pattern. -/
def getValue (values : List (String × List String)) (key : String) : Option String :=
  ((values.lookup key).getD []).head?

/-- The JS spread `{...values, key: v}`: replace or add the binding so that
later lookups of `key` see `v` and all other keys are unchanged. -/
def setValue (values : List (String × List String)) (key : String)
    (v : List String) : List (String × List String) :=
  (key, v) :: values.filter (fun p => p.1 ≠ key)

/-- The `submitResult` acknowledgement object (submit-chorus-study.js
lines 178-185). -/
structure SubmitResult where
  status : String
  sessionName : String
  turnNumber : Nat
  checkUrl : String
  estimatedSeconds : Nat
  pollAdvice : String
deriving Repr, DecidableEq, Inhabited

/-- Outcome of the gateway pipeline: a synchronous rejection (pipeRunner
error string) or the accepted acknowledgement. -/
inductive SubmitOutcome where
  | rejected (msg : String)
  | accepted (ack : SubmitResult)
deriving Repr, DecidableEq, Inhabited

/-- The gateway's volatile in-process state: `inFlightSessions` (a JS `Set`,
embedded as a duplicate-free list) plus the multiset of session names that
currently have a live detached child process (one entry per spawn whose
`close`/`error` handler has not yet fired). -/
structure GatewayState where
  inFlight : List String
  spawned : List String
deriving Repr, DecidableEq, Inhabited

/-- The gateway state at module load: both collections empty. -/
def GatewayState.init : GatewayState := { inFlight := [], spawned := [] }

/-- Pipeline stage 1 of submit-chorus-study (lines 52-89): resolve the
session name and next turn number. A provided (truthy) session name whose
file exists and loads gives `turns.length + 1`; a file that exists but
fails to load is caught and treated as turn 1; a missing file gives 1; no
provided name gives the generated name with turn 1. -/
def resolveSessionTurn (providedSessionName : Option String) (dir : SessionDir)
    (generatedName : String) : String × Nat :=
  if jsTruthyStr providedSessionName then
    let name := providedSessionName.getD ""
    match dir name with
    | .absent => (name, 1)
    | .corrupt => (name, 1)
    | .parsed existing => (name, (existing.turns.getD []).length + 1)
  else
    (generatedName, 1)

/-- JS `parseInt(s) || 3` for the perspectives value: an unparseable string
(NaN) and 0 are falsy and fall back to 3. Negative inputs are not modelled
(`String.toNat?` rejects them, conservatively mapping them to the default). -/
def parsePerspectivesOr3 (s : String) : Nat :=
  match s.toNat? with
  | none => 3
  | some n => if n = 0 then 3 else n

/-- The full service function of submit-chorus-study.js (stages 1-3) on its
pure data: validation, session/turn resolution, the in-flight check, the
registration and spawn, and the acknowledgement. The detached spawn is
recorded in `spawned`; `checkUrl` concatenation models `encodeURIComponent`
as the identity (the names this layer generates are URL-safe). -/
def submitChorusStudy (req : RequestBody) (dir : SessionDir)
    (generatedName : String) (st : GatewayState) : SubmitOutcome × GatewayState :=
  if req.fileList.length = 0 then
    (.rejected "Missing prompt: fileList must contain at least one element", st)
  else
    let providedSessionName := getValue req.values "sessionName"
    let resolved := resolveSessionTurn providedSessionName dir generatedName
    let sessionName := resolved.1
    let turnNumber := resolved.2
    if sessionName ∈ st.inFlight then
      (.rejected ("Session \"" ++ sessionName ++ "\" already has a turn in progress"), st)
    else
      let st' : GatewayState :=
        { inFlight := sessionName :: st.inFlight
          spawned := sessionName :: st.spawned }
      let perspectives := parsePerspectivesOr3 ((getValue req.values "perspectives").getD "3")
      (.accepted
        { status := "accepted"
          sessionName := sessionName
          turnNumber := turnNumber
          checkUrl := "/api/chorusStudyStatus?sessionName=" ++ sessionName
            ++ "&turnNumber=" ++ toString turnNumber
          estimatedSeconds := perspectives * 120
          pollAdvice := "Wait 5 minutes before first check, then every 60 seconds." },
        st')

/-- The askMilo input forwarded to the spawned child (lines 113-124):
the caller's switches with `json: true`, the caller's values with
`sessionName` overwritten by the gateway-resolved name. In particular a
`resumeSession` value is forwarded only if the caller supplied one. -/
def buildAskMiloInput (req : RequestBody) (sessionName : String) : RequestBody :=
  { switches := ("json", true) :: req.switches.filter (fun p => p.1 ≠ "json")
    values := setValue req.values "sessionName" [sessionName]
    fileList := req.fileList }

/-- The error text persisted by the close handler for a non-zero exit code
(line 150): exit code plus the first 2000 characters of captured stderr. -/
def crashErrorMessage (code : Int) (stderrBuffer : String) : String :=
  "askMilo exited with code " ++ toString code ++ ": " ++ (stderrBuffer.take 2000)

/-- The error session record the close handler writes (lines 147-153). -/
def crashErrorSession (sessionName : String) (code : Int) (stderrBuffer : String)
    (now : String) : Session :=
  { sessionName := sessionName
    createdAt := none
    updatedAt := none
    promptConfig := none
    configMeta := none
    status := some "error"
    error := some (crashErrorMessage code stderrBuffer)
    failedAt := some now
    turns := some []
    totalCost := none }

/-- The `child.on('close')` handler (lines 142-162): deregister the session
name; on a non-zero exit code, write the error session record over the
session's file. Returns the updated registry state and directory. -/
def closeHandler (sessionName : String) (code : Int) (stderrBuffer : String)
    (now : String) (st : GatewayState) (dir : SessionDir) : GatewayState × SessionDir :=
  let st' : GatewayState :=
    { inFlight := st.inFlight.erase sessionName
      spawned := st.spawned.erase sessionName }
  if code ≠ 0 then
    (st', fun n =>
      if n = sessionName then .parsed (crashErrorSession sessionName code stderrBuffer now)
      else dir n)
  else
    (st', dir)

/-- The `child.on('error')` handler (lines 164-167): a failed spawn only
deregisters the session name. -/
def spawnErrorHandler (sessionName : String) (st : GatewayState) : GatewayState :=
  { inFlight := st.inFlight.erase sessionName
    spawned := st.spawned.erase sessionName }

/-- The externally visible events that mutate the gateway's volatile state:
a submission, a child-process close, a spawn failure. The close event's
directory effect is tracked separately by `closeHandler`; this event system
tracks the registry, which is what the in-flight invariant is about. -/
inductive GatewayEvent where
  | submit (req : RequestBody) (dir : SessionDir) (generatedName : String)
  | close (sessionName : String) (code : Int)
  | spawnFailed (sessionName : String)

/-- One step of the gateway's registry state machine. -/
def gatewayStep (st : GatewayState) (e : GatewayEvent) : GatewayState :=
  match e with
  | .submit req dir generatedName => (submitChorusStudy req dir generatedName st).2
  | .close sessionName _ =>
      { inFlight := st.inFlight.erase sessionName
        spawned := st.spawned.erase sessionName }
  | .spawnFailed sessionName =>
      { inFlight := st.inFlight.erase sessionName
        spawned := st.spawned.erase sessionName }

/-- The gateway state after a sequence of events from module load. -/
def runGateway (events : List GatewayEvent) : GatewayState :=
  events.foldl gatewayStep GatewayState.init

/-! ## askMilo background run: session resume and save
(single-call-tools-direct.mjs, askMilo sequencer lines 482-556 and 871-917) -/

/-- The session-resume step (lines 482-556): only a truthy
`values.resumeSession` whose file loads yields a resumed session object; a
missing file falls through to a fresh session (the name is recycled into
`values.sessionName`), and no `resumeSession` value means no session object.
A corrupt file makes `loadSession` throw out of the try block, aborting the
run; that path ends the process abnormally and is out of this function. -/
def resolveResumeSession (values : List (String × List String)) (dir : SessionDir) :
    Option Session :=
  match getValue values "resumeSession" with
  | none => none
  | some name =>
    if name = "" then none
    else
      match dir name with
      | .parsed s => some s
      | _ => none

/-- The session save in the pipeRunner completion callback (lines 871-917):
the turn number is `session.turns.length + 1` when a resumed session object
exists and 1 otherwise; the turn is appended to the resumed session or a
brand-new session is created under `values.sessionName` (or a generated
name), and the result is written with `saveSession` — overwriting whatever
file previously existed under that session name. -/
def askMiloSessionSave (resumeSession : Option Session)
    (values : List (String × List String)) (generatedName : String)
    (prompt : String) (turnCost : Cost)
    (promptConfig : PromptConfig) (configMeta : SessionConfigMeta)
    (now : String) (dir : SessionDir) : SessionDir :=
  let turnNumber : Nat :=
    match resumeSession with
    | some s => (s.turns.getD []).length + 1
    | none => 1
  let thisTurn : Turn := { turnNumber := turnNumber, prompt := prompt, totalCost := turnCost }
  let session : Session :=
    match resumeSession with
    | some s => appendTurnToSession s thisTurn
    | none =>
      let sessionName := jsStringOr (getValue values "sessionName") generatedName
      createNewSession sessionName now promptConfig configMeta thisTurn
  saveSession session now dir

/-! ## Fan-Out Dispatcher (fanOut-direct.mjs lines 93-131, part_015 lines
123-161; the two variants share this collection logic verbatim) -/

/-- An `Instruction` record produced by expansion. -/
structure Instruction where
  id : Nat
  perspective : String
  instruction : String
  methodology : String
deriving Repr, DecidableEq, Inhabited

/-- A `PerspectiveResult` as returned per fan-out participant. -/
structure PerspectiveResult where
  id : Nat
  perspective : String
  instruction : String
  findings : String
  model : String
  cost : Cost
  turns : Nat
deriving Repr, DecidableEq, Inhabited

/-- One element of the `Promise.allSettled` result array: the participant
call either fulfilled with a result or rejected with a reason. -/
inductive SettledOutcome where
  | fulfilled (value : PerspectiveResult)
  | rejected (reason : String)
deriving Repr, DecidableEq, Inhabited

/-- The configuration fields the fan-out stage receives (buildConfig,
single-call-tools-direct.mjs lines 439-472; only the fields the dispatcher
reads or that select its policy are kept). -/
structure AskMiloConfig where
  agentModel : String
  perspectives : Nat
  summarize : Bool
  dryRun : Bool
  serialFanOut : Bool
deriving Repr, DecidableEq, Inhabited

/-- The failed-participant placeholder entry (fanOut-direct.mjs lines
118-126): failure marker in `findings`, zero cost, zero turns. -/
def failedPerspectiveResult (instr : Instruction) (agentModel : String)
    (reason : String) : PerspectiveResult :=
  { id := instr.id
    perspective := instr.perspective
    instruction := instr.instruction
    findings := "[AGENT FAILED: " ++ reason ++ "]"
    model := agentModel
    cost := Cost.zero
    turns := 0 }

/-- The `fanOut` function: one `runOneAgent` promise per instruction, then
`Promise.allSettled` and the collection loop. The behaviour of a single
participant call is the parameter `agentOutcome`, a function of its own
instruction only — `allSettled` waits for every promise regardless of
rejections, so every index contributes exactly one entry, fulfilled or not.
`config.serialFanOut` is never read here: the promises are all created by
the `instructions.map` before anything is awaited. -/
def fanOut (instructions : List Instruction) (config : AskMiloConfig)
    (agentOutcome : Instruction → SettledOutcome) : List PerspectiveResult :=
  let settled := instructions.map agentOutcome
  settled.zipWith
    (fun outcome instr =>
      match outcome with
      | .fulfilled value => value
      | .rejected reason => failedPerspectiveResult instr config.agentModel reason)
    instructions

/-- The order of dispatch-relevant events during one `fanOut` run. -/
inductive DispatchEvent where
  | start (id : Nat)
  | settle (id : Nat)
deriving Repr, DecidableEq, Inhabited

/-- The dispatch trace of `fanOut` as written: `instructions.map(runOneAgent)`
eagerly invokes every async participant, issuing all N upstream API requests
before `Promise.allSettled` first suspends, so every `start` event precedes
every `settle` event; the settles then arrive in some order given by
`settleOrder`. The `config` argument is what the source receives — the
trace does not depend on it because the source never consults
`config.serialFanOut` (or any other flag) when dispatching. -/
def fanOutDispatchTrace (instructions : List Instruction) (config : AskMiloConfig)
    (settleOrder : List Nat) : List DispatchEvent :=
  instructions.map (fun i => DispatchEvent.start i.id) ++ settleOrder.map DispatchEvent.settle

/-- Formalisation of the spec's serial dispatch policy, for comparison with
the code's trace: every participant call after the first starts only after
the previous participant has settled. -/
def serialDispatchCheck (instructions : List Instruction)
    (trace : List DispatchEvent) : Bool :=
  (List.range (instructions.length - 1)).all fun k =>
    trace.indexOf (DispatchEvent.settle ((instructions.getD k default).id))
      < trace.indexOf (DispatchEvent.start ((instructions.getD (k + 1) default).id))

/-! ## Expansion Stage (expand, fanOut-direct.mjs lines 174-261) -/

/-- The instructions payload the expansion call is expected to return
(`expansionSchema`): an object whose `instructions` field may be absent
(`data.instructions || []`). -/
structure ExpansionData where
  instructions : Option (List Instruction)
deriving Repr, DecidableEq, Inhabited

/-- Token usage reported by the SDK on the result message. -/
structure SdkUsage where
  input_tokens : Nat
  output_tokens : Nat
deriving Repr, DecidableEq, Inhabited

/-- The single `result`-type message the SDK query stream yields at the end
of an expansion call. `structuredOutput` is `message.structured_output`;
`resultParse` is what `JSON.parse(message.result)` would produce, `none`
when the parse throws. -/
structure ExpandResultMessage where
  subtype : String
  structuredOutput : Option ExpansionData
  resultParse : Option ExpansionData
  usage : Option SdkUsage
  totalCostUsd : Option Rat
deriving Repr, DecidableEq, Inhabited

/-- Outcome of the expansion stage: the instruction list and cost, or a
thrown error (a fatal StageError — the enclosing sequencer aborts on it and
nothing at this layer retries). -/
inductive ExpandOutcome where
  | ok (instructions : List Instruction) (expandCost : Cost)
  | stageError (msg : String)
deriving Repr, DecidableEq, Inhabited

/-- The cost extracted from a successful expansion result message
(lines 242-246): usage token counts with `|| 0` guards. -/
def expandCostOf (msg : ExpandResultMessage) : Cost :=
  { inputTokens := (msg.usage.map SdkUsage.input_tokens).getD 0
    outputTokens := (msg.usage.map SdkUsage.output_tokens).getD 0
    usd := msg.totalCostUsd.getD 0 }

/-- The `expand` stage (lines 174-261) as a function of the result message.
On subtype `success` the payload is `structured_output || JSON.parse(result)`
— a parse throw is the thrown StageError; a payload whose instruction list
is empty (or absent) throws "Expansion returned zero instructions"; any
other subtype throws. The parse-failure and non-success error strings
abbreviate the thrown messages (the V8 parse-exception text and the
`Expansion failed: subtype - errors` template) — callers branch only on
throw versus return, never on these texts. Note that nothing here compares
the list's length with the requested perspective count, nor inspects the
ids. -/
def expand (targetPerspectives : Nat) (msg : ExpandResultMessage) : ExpandOutcome :=
  if msg.subtype = "success" then
    let payload :=
      match msg.structuredOutput with
      | some d => some d
      | none => msg.resultParse
    match payload with
    | none => .stageError "Unexpected token in JSON"
    | some data =>
      let instructions := data.instructions.getD []
      if instructions.length = 0 then
        .stageError "Expansion returned zero instructions"
      else
        .ok instructions (expandCostOf msg)
  else
    .stageError ("Expansion failed: " ++ msg.subtype)

/-! ## Tool-use single-call loop (single-call-tools-direct.mjs lines 11-165) -/

/-- Per-million-token pricing table `MODEL_PRICING` (lines 12-16). -/
def MODEL_PRICING : List (String × Rat × Rat) :=
  [("claude-opus-4-6", (5, 25)),
   ("claude-sonnet-4-6", (3, 15)),
   ("claude-haiku-4-5", (1, 5))]

/-- `estimateCost` (lines 18-23): token counts priced per million, with the
sonnet rates as the silent fallback for unrecognised model identifiers. -/
def estimateCost (model : String) (usage : SdkUsage) : Rat :=
  let rates := (MODEL_PRICING.lookup model).getD ((MODEL_PRICING.lookup "claude-sonnet-4-6").getD (0, 0))
  (usage.input_tokens : Rat) / 1000000 * rates.1
    + (usage.output_tokens : Rat) / 1000000 * rates.2

/-- `accumulateCost` (lines 25-32): add one iteration's usage and estimated
price into the running total. -/
def accumulateCost (totalCost : Cost) (usage : SdkUsage) (model : String) : Cost :=
  { inputTokens := totalCost.inputTokens + usage.input_tokens
    outputTokens := totalCost.outputTokens + usage.output_tokens
    usd := totalCost.usd + estimateCost model usage }

/-- `MAX_TOOL_ITERATIONS` (line 34). -/
def MAX_TOOL_ITERATIONS : Nat := 10

/-- A content block of an API response. -/
inductive ContentBlock where
  | text (s : String)
  | thinking (s : String)
  | toolUse (id : String) (toolName : String) (input : String)
deriving Repr, DecidableEq, Inhabited

/-- One API response in the conversation loop. -/
structure ApiResponse where
  stop_reason : String
  content : List ContentBlock
  usage : SdkUsage
deriving Repr, DecidableEq, Inhabited

/-- The text extraction applied to a final response (lines 104-109): keep
nonempty `text` blocks, trim, drop blanks, join with blank lines, and fall
back to "[NO RESPONSE]". -/
def responseTextOf (response : ApiResponse) : String :=
  let textParts :=
    (response.content.filterMap fun b =>
        match b with
        | .text s => if s = "" then none else some s.trim
        | _ => none).filter
      (fun t => t.length > 0)
  if textParts.length > 0 then String.intercalate "\n\n" textParts
  else "[NO RESPONSE]"

/-- The bounded-iteration finding returned when the cap is hit
(lines 161-164). -/
def maxIterationsText : String :=
  "[MAX TOOL ITERATIONS REACHED (10)] The model continued requesting tool calls beyond the iteration limit."

/-- The `while (iteration < MAX_TOOL_ITERATIONS)` loop of
`singleCallWithTools` (lines 66-164). The model's reply to the i-th request
of this conversation is `responses i` (the tool executions feed into what
the model replies next; the loop logic only branches on `stop_reason`).
Each pass accumulates that response's usage into the running cost; a
non-`tool_use` stop reason returns the extracted text; otherwise the loop
continues, and falling out of the loop returns the bounded-iteration
finding with the accumulated cost. -/
def singleCallLoop (responses : Nat → ApiResponse) (model : String)
    (iteration : Nat) (totalCost : Cost) : String × Cost :=
  if _h : iteration < MAX_TOOL_ITERATIONS then
    let response := responses iteration
    let totalCost' := accumulateCost totalCost response.usage model
    if response.stop_reason ≠ "tool_use" then
      (responseTextOf response, totalCost')
    else
      singleCallLoop responses model (iteration + 1) totalCost'
  else
    (maxIterationsText, totalCost)
termination_by MAX_TOOL_ITERATIONS - iteration

/-- `singleCallWithTools` entry: iteration 0, zero running cost
(lines 64-66). -/
def singleCallWithTools (responses : Nat → ApiResponse) (model : String) :
    String × Cost :=
  singleCallLoop responses model 0 Cost.zero

/-- The running cost after n passes of the loop: the accumulation of usage
across iterations 0..n-1, formalising the spec's "cost is accumulated
across all iterations". -/
def accumulatedCost (responses : Nat → ApiResponse) (model : String) (n : Nat) : Cost :=
  (List.range n).foldl (fun c i => accumulateCost c (responses i).usage model) Cost.zero

/-! ## Spec-side predicates (formalising the claims' wording, for comparison
with the embedded code) -/

/-- The spec's session-cost invariant as claimed: the session's `totalCost`
object carries, in all three fields, the sums over the session's turns. -/
def sessionCostInvariant (s : Session) : Prop :=
  s.totalCost = some
    { inputTokens := some ((s.turns.getD []).foldl (fun a t => a + t.totalCost.inputTokens) 0)
      outputTokens := some ((s.turns.getD []).foldl (fun a t => a + t.totalCost.outputTokens) 0)
      usd := (s.turns.getD []).foldl (fun a t => a + t.totalCost.usd) 0 }

instance (s : Session) : Decidable (sessionCostInvariant s) := by
  unfold sessionCostInvariant; infer_instance

/-! ## Concrete fixtures used by witnesses and counterexamples -/

/-- A first sample per-turn cost. -/
def sampleCost1 : Cost := { inputTokens := 100, outputTokens := 200, usd := 3/2 }

/-- A second sample per-turn cost. -/
def sampleCost2 : Cost := { inputTokens := 10, outputTokens := 20, usd := 1/4 }

/-- A sample first turn. -/
def sampleTurn1 : Turn := { turnNumber := 1, prompt := "compare X and Y", totalCost := sampleCost1 }

/-- A sample second turn. -/
def sampleTurn2 : Turn := { turnNumber := 2, prompt := "and what about Z", totalCost := sampleCost2 }

/-- A sample prompt configuration. -/
def samplePromptConfig : PromptConfig :=
  { firstPromptName := "chorusExpander", perspectives := 3, summarize := false }

/-- A sample model/driver configuration record. -/
def sampleConfigMeta : SessionConfigMeta :=
  { expandModel := "claude-opus-4-6", agentModel := "claude-sonnet-4-6"
    driver := "direct", perspectives := 3 }

/-- A session with one persisted turn, as `createNewSession` produces it. -/
def sampleSession1 : Session :=
  createNewSession "amber_ridge" "2026-01-01T00:00:00.000Z"
    samplePromptConfig sampleConfigMeta sampleTurn1

/-- A session directory holding exactly `sampleSession1`. -/
def sampleDir : SessionDir :=
  fun n => if n = "amber_ridge" then .parsed sampleSession1 else .absent

/-- A parsed session carrying the gateway's explicit error marker. -/
def sampleErrorSession : Session :=
  crashErrorSession "amber_ridge" 1 "boom" "2026-01-01T00:05:00.000Z"

/-- A request body that resubmits to `amber_ridge` with one prompt and no
`resumeSession` value. -/
def sampleResubmitRequest : RequestBody :=
  { switches := [("summarize", true)]
    values := [("sessionName", ["amber_ridge"]), ("perspectives", ["3"])]
    fileList := ["follow-up question"] }

/-- Two instructions for the fan-out fixtures. -/
def twoInstructions : List Instruction :=
  [{ id := 1, perspective := "economic", instruction := "analyze economics", methodology := "survey" },
   { id := 2, perspective := "technical", instruction := "analyze tech", methodology := "review" }]

/-- A config that selects the serial dispatch policy. -/
def serialConfig : AskMiloConfig :=
  { agentModel := "claude-sonnet-4-6", perspectives := 2, summarize := false
    dryRun := false, serialFanOut := true }

/-- A fulfilled participant result for an instruction. -/
def okResultFor (instr : Instruction) : PerspectiveResult :=
  { id := instr.id, perspective := instr.perspective, instruction := instr.instruction
    findings := "detailed findings", model := "claude-sonnet-4-6"
    cost := sampleCost2, turns := 1 }

/-- A participant behaviour where the first instruction's call rejects and
every other call fulfills. -/
def oneFailureOutcome : Instruction → SettledOutcome :=
  fun instr => if instr.id = 1 then .rejected "Error: 429" else .fulfilled (okResultFor instr)

/-- A successful expansion result message parsing to two instructions. -/
def twoInstructionMessage : ExpandResultMessage :=
  { subtype := "success"
    structuredOutput := some { instructions := some twoInstructions }
    resultParse := none
    usage := some { input_tokens := 500, output_tokens := 800 }
    totalCostUsd := some (1/10) }

/-- A model reply that always requests more tool calls. -/
def alwaysToolUseResponses : Nat → ApiResponse :=
  fun _ =>
    { stop_reason := "tool_use"
      content := [.toolUse "toolu_1" "confluence_search" "query"]
      usage := { input_tokens := 1000, output_tokens := 100 } }

/-! # Theorems -/

/-! ## Helper lemmas -/

lemma getValue_setValue_ne (values : List (String × List String))
    (key key' : String) (v : List String) (h : key' ≠ key) :
    getValue (setValue values key v) key' = getValue values key' := by
  unfold getValue setValue
  have hbeq : (key' == key) = false := by
    simpa using h
  simp only [List.lookup, hbeq]
  induction values with
  | nil => rfl
  | cons p t ih =>
    by_cases hp : p.1 = key
    · simp [hp, List.lookup, List.filter, hbeq, beq_iff_eq]
      simpa [hp, List.filter] using ih
    · by_cases hk : key' = p.1
      · simp [List.filter, hp, List.lookup, hk]
      · have h1 : (key' == p.1) = false := by simpa using hk
        simp only [List.filter, hp]
        simp only [decide_not, decide_eq_true_eq]
        simp [List.lookup, h1, hp] at ih ⊢
        simpa [List.filter] using ih

lemma getValue_setValue_self (values : List (String × List String))
    (key : String) (v : List String) :
    getValue (setValue values key v) key = v.head? := by
  unfold getValue setValue
  simp [List.lookup]

lemma zipWith_map_self_getD {α β γ : Type} [Inhabited α] [Inhabited γ]
    (k : β → α → γ) (g : α → β) :
    ∀ (l : List α) (i : Nat), i < l.length →
      (List.zipWith k (l.map g) l).getD i default
        = k (g (l.getD i default)) (l.getD i default) := by
  intro l
  induction l with
  | nil => intro i h; simp at h
  | cons a t ih =>
    intro i h
    cases i with
    | zero => rfl
    | succ n =>
      simp only [List.map_cons, List.zipWith_cons_cons, List.getD_cons_succ]
      exact ih n (by simpa using h)

/-! ## C2 — Status Poller -/

/-- C2: For every status query (sessionName, turnNumber) with
turnNumber ≥ 1, the poller's result is a pure function of the persisted
session file (it is literally a function of `FileState` here, and the
source performs only reads): no file yields running with completedTurns 0;
an unparseable file yields error "corrupt session file"; a file with the
explicit error marker yields error with the stored message; a file with
turns.length ≥ turnNumber yields complete with the turn at 1-based position
turnNumber; otherwise running with completedTurns = turns.length. -/
theorem C2_status_poller_cases (sessionName : String) (turnNumber : Nat)
    (hvalid : 1 ≤ turnNumber) :
    (chorusStudyStatus .absent sessionName turnNumber
        = .running sessionName turnNumber 0)
    ∧ (chorusStudyStatus .corrupt sessionName turnNumber
        = .error sessionName "corrupt session file")
    ∧ (∀ d m, d.status = some "error" → d.error = some m → m ≠ "" →
        chorusStudyStatus (.parsed d) sessionName turnNumber = .error sessionName m)
    ∧ (∀ d ts, d.status ≠ some "error" → d.turns = some ts → turnNumber ≤ ts.length →
        chorusStudyStatus (.parsed d) sessionName turnNumber
          = .complete sessionName turnNumber (ts.getD (turnNumber - 1) default))
    ∧ (∀ d ts, d.status ≠ some "error" → d.turns = some ts → ts.length < turnNumber →
        chorusStudyStatus (.parsed d) sessionName turnNumber
          = .running sessionName turnNumber ts.length) := by
  refine ⟨rfl, rfl, ?_, ?_, ?_⟩
  · intro d m hstatus herr hm
    simp [chorusStudyStatus, hstatus, jsStringOr, herr, hm]
  · intro d ts hstatus hturns hle
    simp [chorusStudyStatus, hstatus, hturns, hle]
  · intro d ts hstatus hturns hlt
    simp [chorusStudyStatus, hstatus, hturns, Nat.not_le.mpr hlt]

/-- C2 witness: the theorem applied at concrete inputs — the
missing-file case at turn 1, the error-marker case on the session record
the gateway's crash handler writes, and the complete case on a one-turn
session polled at turn 1. -/
lemma crashErrorMessage_ne_empty (code : Int) (stderrBuffer : String) :
    crashErrorMessage code stderrBuffer ≠ "" := by
  unfold crashErrorMessage
  intro h
  have hlen := congrArg String.length h
  have h25 : ("askMilo exited with code " : String).length = 25 := by decide
  simp [String.length_append, h25] at hlen

theorem C2_status_poller_cases_witness :
    (chorusStudyStatus .absent "never_submitted" 1 = .running "never_submitted" 1 0)
    ∧ (chorusStudyStatus (.parsed sampleErrorSession) "amber_ridge" 1
        = .error "amber_ridge" (crashErrorMessage 1 "boom"))
    ∧ (chorusStudyStatus (.parsed sampleSession1) "amber_ridge" 1
        = .complete "amber_ridge" 1 sampleTurn1) := by
  refine ⟨(C2_status_poller_cases "never_submitted" 1 (by decide)).1, ?_, ?_⟩
  · exact (C2_status_poller_cases "amber_ridge" 1 (by decide)).2.2.1
      sampleErrorSession (crashErrorMessage 1 "boom") rfl rfl
      (crashErrorMessage_ne_empty 1 "boom")
  · have h := (C2_status_poller_cases "amber_ridge" 1 (by decide)).2.2.2.1
      sampleSession1 [sampleTurn1] (by decide) rfl (by decide)
    simpa using h

/-! ## C7 — session totalCost invariant -/

/-- C7 counterexample: appending a second turn to a freshly created session
yields a session whose `totalCost` does NOT equal the sum of its turns'
`totalCost` in all three fields — `appendTurnToSession` rebuilds the object
with only a `usd` field, so the token fields are absent. -/
theorem C7_counterexample_append_drops_tokens :
    ¬ sessionCostInvariant (appendTurnToSession sampleSession1 sampleTurn2) := by
  decide

/-- C7 amended: after `createNewSession` the session's totalCost equals the
sum of its turns' totalCost in all three fields; after `appendTurnToSession`
only the `usd` field equals the sum over the turns — the token fields are
dropped (absent from the rebuilt object). -/
theorem C7_amended_session_costs (name now : String) (pc : PromptConfig)
    (cm : SessionConfigMeta) (turn : Turn) (s : Session) (t : Turn) :
    sessionCostInvariant (createNewSession name now pc cm turn)
    ∧ (appendTurnToSession s t).totalCost = some
        { inputTokens := none
          outputTokens := none
          usd := ((appendTurnToSession s t).turns.getD []).foldl
            (fun a u => a + u.totalCost.usd) 0 } := by
  constructor
  · simp [sessionCostInvariant, createNewSession, Cost.toSessionCost]
  · rfl

/-! ## C8 — acknowledged turn number -/

/-- C8: for every valid submission accepted by the gateway, the
acknowledgement's turnNumber equals the named session's persisted turn
count plus 1, and equals 1 for a new session (no file yet, or no session
name supplied so a generated name is used). -/
theorem C8_ack_turn_number (req : RequestBody) (dir : SessionDir)
    (generatedName : String) (st : GatewayState)
    (hfl : req.fileList ≠ []) :
    (∀ name existing ts,
       getValue req.values "sessionName" = some name → name ≠ "" →
       dir name = .parsed existing → existing.turns = some ts →
       name ∉ st.inFlight →
       ∃ ack, (submitChorusStudy req dir generatedName st).1 = .accepted ack
         ∧ ack.sessionName = name ∧ ack.turnNumber = ts.length + 1)
    ∧ (∀ name,
       getValue req.values "sessionName" = some name → name ≠ "" →
       dir name = .absent → name ∉ st.inFlight →
       ∃ ack, (submitChorusStudy req dir generatedName st).1 = .accepted ack
         ∧ ack.sessionName = name ∧ ack.turnNumber = 1)
    ∧ (getValue req.values "sessionName" = none → generatedName ∉ st.inFlight →
       ∃ ack, (submitChorusStudy req dir generatedName st).1 = .accepted ack
         ∧ ack.sessionName = generatedName ∧ ack.turnNumber = 1) := by
  have hlen : ¬ req.fileList.length = 0 := by
    simpa [List.length_eq_zero] using hfl
  refine ⟨?_, ?_, ?_⟩
  · intro name existing ts hname hne hdir hturns hflight
    unfold submitChorusStudy
    rw [hname]
    simp [resolveSessionTurn, jsTruthyStr, hne, hdir, hturns, hlen, hflight]
  · intro name hname hne hdir hflight
    unfold submitChorusStudy
    rw [hname]
    simp [resolveSessionTurn, jsTruthyStr, hne, hdir, hlen, hflight]
  · intro hname hflight
    unfold submitChorusStudy
    rw [hname]
    simp [resolveSessionTurn, jsTruthyStr, hlen, hflight]

/-- C8 witness: resubmitting to the one-turn session `amber_ridge` is
acknowledged with turnNumber 2. -/
theorem C8_ack_turn_number_witness :
    ∃ ack, (submitChorusStudy sampleResubmitRequest sampleDir "misty_vale"
      GatewayState.init).1 = .accepted ack
      ∧ ack.sessionName = "amber_ridge" ∧ ack.turnNumber = 2 :=
  (C8_ack_turn_number sampleResubmitRequest sampleDir "misty_vale"
      GatewayState.init (by decide)).1
    "amber_ridge" sampleSession1 [sampleTurn1] rfl (by decide) rfl rfl (by decide)

/-! ## C5 — In-Flight Registry -/

/-- The registry invariant: the JS `Set` holds no duplicates, and every
live background process's session name is registered (counted with
multiplicity: never more processes for a name than registrations). -/
def RegistryInv (st : GatewayState) : Prop :=
  st.inFlight.Nodup ∧ ∀ n, st.spawned.count n ≤ st.inFlight.count n

lemma registryInv_init : RegistryInv GatewayState.init := by
  refine ⟨List.nodup_nil, ?_⟩
  intro n
  simp [GatewayState.init]

lemma registryInv_erase (st : GatewayState) (name : String) (h : RegistryInv st) :
    RegistryInv { inFlight := st.inFlight.erase name, spawned := st.spawned.erase name } := by
  obtain ⟨hnd, hc⟩ := h
  refine ⟨hnd.erase _, ?_⟩
  intro n
  by_cases hn : n = name
  · subst hn
    rw [List.count_erase_self, List.count_erase_self]
    exact Nat.sub_le_sub_right (hc n) 1
  · rw [List.count_erase_of_ne hn, List.count_erase_of_ne hn]
    exact hc n

lemma registryInv_step (st : GatewayState) (e : GatewayEvent) (h : RegistryInv st) :
    RegistryInv (gatewayStep st e) := by
  cases e with
  | close name code => exact registryInv_erase st name h
  | spawnFailed name => exact registryInv_erase st name h
  | submit req dir gen =>
    obtain ⟨hnd, hc⟩ := h
    simp only [gatewayStep]
    unfold submitChorusStudy
    by_cases hfl : req.fileList.length = 0
    · simpa [hfl] using ⟨hnd, hc⟩
    · simp only [hfl, if_false]
      by_cases hin :
          (resolveSessionTurn (getValue req.values "sessionName") dir gen).1 ∈ st.inFlight
      · simpa [hin] using ⟨hnd, hc⟩
      · simp only [hin, if_false, ite_false]
        refine ⟨List.nodup_cons.mpr ⟨hin, hnd⟩, ?_⟩
        intro n
        by_cases hn :
            n = (resolveSessionTurn (getValue req.values "sessionName") dir gen).1
        · rw [hn]
          simp only [List.count_cons_self]
          exact Nat.succ_le_succ (hc _)
        · rw [List.count_cons_of_ne hn, List.count_cons_of_ne hn]
          exact hc n

lemma registryInv_run (events : List GatewayEvent) : RegistryInv (runGateway events) := by
  unfold runGateway
  have h : ∀ st, RegistryInv st → RegistryInv (events.foldl gatewayStep st) := by
    induction events with
    | nil => intro st h; exact h
    | cons e t ih => intro st h; exact ih _ (registryInv_step st e h)
  exact h _ registryInv_init

/-- C5: while a session name is registered in the in-flight registry, a
further submission resolving to that name is rejected synchronously with
the duplicate-in-flight error and changes nothing (no spawn, registry and
running processes untouched); an accepted submission registers the name
and records the spawn together; the close and spawn-error handlers
deregister the name; and over every event sequence from module load, each
live background process's name is registered and at most one process per
session name is in flight. -/
theorem C5_in_flight_registry (req : RequestBody) (dir : SessionDir)
    (generatedName name : String) (st stFree : GatewayState) (code : Int)
    (events : List GatewayEvent)
    (hname : (resolveSessionTurn (getValue req.values "sessionName") dir generatedName).1 = name)
    (hfl : req.fileList ≠ [])
    (hin : name ∈ st.inFlight)
    (hfree : name ∉ stFree.inFlight) :
    submitChorusStudy req dir generatedName st
      = (.rejected ("Session \"" ++ name ++ "\" already has a turn in progress"), st)
    ∧ (∃ ack, submitChorusStudy req dir generatedName stFree
        = (.accepted ack,
           { inFlight := name :: stFree.inFlight, spawned := name :: stFree.spawned }))
    ∧ gatewayStep st (.close name code)
        = { inFlight := st.inFlight.erase name, spawned := st.spawned.erase name }
    ∧ gatewayStep st (.spawnFailed name)
        = { inFlight := st.inFlight.erase name, spawned := st.spawned.erase name }
    ∧ (∀ n, (runGateway events).spawned.count n ≤ (runGateway events).inFlight.count n)
    ∧ (∀ n, (runGateway events).spawned.count n ≤ 1) := by
  have hlen : ¬ req.fileList.length = 0 := by
    simpa [List.length_eq_zero] using hfl
  obtain ⟨hnd, hc⟩ := registryInv_run events
  refine ⟨?_, ?_, rfl, rfl, hc, ?_⟩
  · unfold submitChorusStudy
    simp [hlen, hname, hin]
  · have hacc : submitChorusStudy req dir generatedName stFree
        = (.accepted
            { status := "accepted", sessionName := name
              turnNumber :=
                (resolveSessionTurn (getValue req.values "sessionName") dir generatedName).2
              checkUrl := "/api/chorusStudyStatus?sessionName=" ++ name ++ "&turnNumber="
                ++ toString
                  (resolveSessionTurn (getValue req.values "sessionName") dir generatedName).2
              estimatedSeconds :=
                parsePerspectivesOr3 ((getValue req.values "perspectives").getD "3") * 120
              pollAdvice := "Wait 5 minutes before first check, then every 60 seconds." },
           { inFlight := name :: stFree.inFlight, spawned := name :: stFree.spawned }) := by
      unfold submitChorusStudy
      simp [hlen, hname, hfree]
    exact ⟨_, hacc⟩
  · intro n
    exact le_trans (hc n) (List.nodup_iff_count_le_one.mp hnd n)

/-- C5 witness: with `amber_ridge` registered, resubmitting to it is
rejected and leaves the state unchanged; on the empty registry the same
submission is accepted and registers the name; and the count bound holds
after a concrete submit-close-submit event sequence. -/
theorem C5_in_flight_registry_witness :
    (submitChorusStudy sampleResubmitRequest sampleDir "misty_vale"
        { inFlight := ["amber_ridge"], spawned := ["amber_ridge"] }
      = (.rejected "Session \"amber_ridge\" already has a turn in progress",
         { inFlight := ["amber_ridge"], spawned := ["amber_ridge"] }))
    ∧ (∀ n, (runGateway
        [.submit sampleResubmitRequest sampleDir "misty_vale",
         .close "amber_ridge" 0,
         .submit sampleResubmitRequest sampleDir "misty_vale"]).spawned.count n ≤ 1) := by
  have h := C5_in_flight_registry sampleResubmitRequest sampleDir "misty_vale"
    "amber_ridge" { inFlight := ["amber_ridge"], spawned := ["amber_ridge"] }
    GatewayState.init 0
    [.submit sampleResubmitRequest sampleDir "misty_vale",
     .close "amber_ridge" 0,
     .submit sampleResubmitRequest sampleDir "misty_vale"]
    (by decide) (by decide) (by decide) (by decide)
  exact ⟨h.1, h.2.2.2.2.2⟩

/-! ## C6 — crash-to-error translation -/

/-- C6: for every background process closing with a non-zero exit code, the
gateway's close handler persists an error session record whose message is
derived from the exit code and captured stderr, so that every subsequent
status poll (any turnNumber ≥ 1) on the persisted record returns status
error with a non-empty message — never running. The handler also
deregisters the session name. -/
theorem C6_crash_persists_error (sessionName stderrBuffer now : String)
    (code : Int) (st : GatewayState) (dir : SessionDir) (turnNumber : Nat)
    (hcode : code ≠ 0) (hvalid : 1 ≤ turnNumber) :
    chorusStudyStatus
        ((closeHandler sessionName code stderrBuffer now st dir).2 sessionName)
        sessionName turnNumber
      = .error sessionName (crashErrorMessage code stderrBuffer)
    ∧ crashErrorMessage code stderrBuffer ≠ ""
    ∧ (closeHandler sessionName code stderrBuffer now st dir).1
        = { inFlight := st.inFlight.erase sessionName
            spawned := st.spawned.erase sessionName } := by
  refine ⟨?_, crashErrorMessage_ne_empty code stderrBuffer, ?_⟩
  · simp [closeHandler, hcode, chorusStudyStatus, crashErrorSession, jsStringOr,
      crashErrorMessage_ne_empty code stderrBuffer]
  · simp [closeHandler, hcode]

/-- C6 witness: exit code 1 with stderr "boom", polled at turn 1. -/
theorem C6_crash_persists_error_witness :
    chorusStudyStatus
        ((closeHandler "amber_ridge" 1 "boom" "2026-01-01T00:05:00.000Z"
            { inFlight := ["amber_ridge"], spawned := ["amber_ridge"] } sampleDir).2
          "amber_ridge")
        "amber_ridge" 1
      = .error "amber_ridge" (crashErrorMessage 1 "boom") :=
  (C6_crash_persists_error "amber_ridge" "boom" "2026-01-01T00:05:00.000Z" 1
    { inFlight := ["amber_ridge"], spawned := ["amber_ridge"] } sampleDir 1
    (by decide) (by decide)).1

/-! ## C4 — resubmission to an existing session -/

/-- C4: submitting to an existing session with k ≥ 1 persisted turns while
supplying no resumeSession value is acknowledged with turnNumber k+1, but
the background run (whose resume step sees no resumeSession value and so
holds no session object) saves a freshly created session with exactly one
turn numbered 1, written over the prior file; polling the acknowledged
turn number k+1 on the written file therefore yields running (completedTurns
= 1), never complete. -/
theorem C4_resubmit_overwrites (req : RequestBody) (dir : SessionDir)
    (generatedName name : String) (existing : Session) (ts : List Turn)
    (st : GatewayState) (prompt : String) (turnCost : Cost)
    (pc : PromptConfig) (cm : SessionConfigMeta) (now : String)
    (hfl : req.fileList ≠ [])
    (hname : getValue req.values "sessionName" = some name) (hne : name ≠ "")
    (hresume : getValue req.values "resumeSession" = none)
    (hdir : dir name = .parsed existing) (hturns : existing.turns = some ts)
    (hk : 1 ≤ ts.length) (hflight : name ∉ st.inFlight) :
    (∃ ack, (submitChorusStudy req dir generatedName st).1 = .accepted ack
       ∧ ack.sessionName = name ∧ ack.turnNumber = ts.length + 1)
    ∧ askMiloSessionSave
        (resolveResumeSession (buildAskMiloInput req name).values dir)
        (buildAskMiloInput req name).values generatedName prompt turnCost pc cm now dir
        name
      = .parsed (createNewSession name now pc cm
          { turnNumber := 1, prompt := prompt, totalCost := turnCost })
    ∧ chorusStudyStatus
        (askMiloSessionSave
          (resolveResumeSession (buildAskMiloInput req name).values dir)
          (buildAskMiloInput req name).values generatedName prompt turnCost pc cm now dir
          name)
        name (ts.length + 1)
      = .running name (ts.length + 1) 1 := by
  have hlen : ¬ req.fileList.length = 0 := by
    simpa [List.length_eq_zero] using hfl
  have hresume' : resolveResumeSession (buildAskMiloInput req name).values dir = none := by
    unfold resolveResumeSession buildAskMiloInput
    rw [getValue_setValue_ne req.values "sessionName" "resumeSession" [name] (by decide)]
    rw [hresume]
  have hsess : getValue (buildAskMiloInput req name).values "sessionName" = some name := by
    show getValue (setValue req.values "sessionName" [name]) "sessionName" = some name
    rw [getValue_setValue_self]
    rfl
  have hsave : askMiloSessionSave
      (resolveResumeSession (buildAskMiloInput req name).values dir)
      (buildAskMiloInput req name).values generatedName prompt turnCost pc cm now dir
      name
      = .parsed (createNewSession name now pc cm
          { turnNumber := 1, prompt := prompt, totalCost := turnCost }) := by
    rw [hresume']
    unfold askMiloSessionSave
    simp [hsess, jsStringOr, hne, saveSession, createNewSession]
  refine ⟨?_, hsave, ?_⟩
  · unfold submitChorusStudy
    rw [hname]
    simp [hlen, resolveSessionTurn, jsTruthyStr, hne, hdir, hturns, hflight]
  · rw [hsave]
    have h2 : ¬ (ts.length + 1 ≤ 1) := by omega
    simp [chorusStudyStatus, createNewSession, h2]

/-- C4 witness: resubmitting to the one-turn session `amber_ridge` is
acknowledged with turn 2, but the background run overwrites the file with a
fresh one-turn session whose only turn is numbered 1, and polling turn 2
yields running. -/
theorem C4_resubmit_overwrites_witness :
    (∃ ack, (submitChorusStudy sampleResubmitRequest sampleDir "misty_vale"
        GatewayState.init).1 = .accepted ack
      ∧ ack.sessionName = "amber_ridge" ∧ ack.turnNumber = 2)
    ∧ chorusStudyStatus
        (askMiloSessionSave
          (resolveResumeSession
            (buildAskMiloInput sampleResubmitRequest "amber_ridge").values sampleDir)
          (buildAskMiloInput sampleResubmitRequest "amber_ridge").values
          "misty_vale" "follow-up question" sampleCost2
          samplePromptConfig sampleConfigMeta "2026-01-01T01:00:00.000Z" sampleDir
          "amber_ridge")
        "amber_ridge" 2
      = .running "amber_ridge" 2 1 := by
  have h := C4_resubmit_overwrites sampleResubmitRequest sampleDir "misty_vale"
    "amber_ridge" sampleSession1 [sampleTurn1] GatewayState.init
    "follow-up question" sampleCost2 samplePromptConfig sampleConfigMeta
    "2026-01-01T01:00:00.000Z"
    (by decide) rfl (by decide) rfl rfl rfl (by decide) (by decide)
  exact ⟨h.1, h.2.2⟩

/-! ## C3 — fan-out failure isolation -/

/-- C3: for every fan-out run over M instructions with any subset of
participants failing, the dispatcher returns exactly M PerspectiveResult
entries, the i-th entry determined solely by the i-th instruction's own
settlement (so no participant's failure prevents any other from
contributing); every rejected participant's entry carries the failure
marker in findings and zero cost, and entries keep the instructions' ids
in instruction order. -/
theorem C3_fanout_failure_isolation (instructions : List Instruction)
    (config : AskMiloConfig) (agentOutcome : Instruction → SettledOutcome)
    (hid : ∀ instr v, agentOutcome instr = .fulfilled v → v.id = instr.id) :
    (fanOut instructions config agentOutcome).length = instructions.length
    ∧ (∀ i, i < instructions.length →
        (fanOut instructions config agentOutcome).getD i default
          = match agentOutcome (instructions.getD i default) with
            | .fulfilled v => v
            | .rejected reason =>
                failedPerspectiveResult (instructions.getD i default)
                  config.agentModel reason)
    ∧ (∀ i, i < instructions.length →
        ((fanOut instructions config agentOutcome).getD i default).id
          = (instructions.getD i default).id)
    ∧ (∀ i reason, i < instructions.length →
        agentOutcome (instructions.getD i default) = .rejected reason →
        ((fanOut instructions config agentOutcome).getD i default).findings
            = "[AGENT FAILED: " ++ reason ++ "]"
        ∧ ((fanOut instructions config agentOutcome).getD i default).cost
            = Cost.zero) := by
  have hentry : ∀ i, i < instructions.length →
      (fanOut instructions config agentOutcome).getD i default
        = match agentOutcome (instructions.getD i default) with
          | .fulfilled v => v
          | .rejected reason =>
              failedPerspectiveResult (instructions.getD i default)
                config.agentModel reason := by
    intro i hi
    unfold fanOut
    exact zipWith_map_self_getD
      (fun outcome instr =>
        match outcome with
        | .fulfilled value => value
        | .rejected reason => failedPerspectiveResult instr config.agentModel reason)
      agentOutcome instructions i hi
  refine ⟨?_, hentry, ?_, ?_⟩
  · unfold fanOut
    simp
  · intro i hi
    rw [hentry i hi]
    cases houtcome : agentOutcome (instructions.getD i default) with
    | fulfilled v => exact hid _ v houtcome
    | rejected reason => rfl
  · intro i reason hi hrej
    rw [hentry i hi, hrej]
    exact ⟨rfl, rfl⟩

/-- C3 witness: two instructions where participant 1 rejects with a 429:
two entries come back, entry 0 has the failure marker and zero cost, entry
1 keeps id 2. -/
theorem C3_fanout_failure_isolation_witness :
    (fanOut twoInstructions serialConfig oneFailureOutcome).length = 2
    ∧ ((fanOut twoInstructions serialConfig oneFailureOutcome).getD 0 default).findings
        = "[AGENT FAILED: Error: 429]"
    ∧ ((fanOut twoInstructions serialConfig oneFailureOutcome).getD 0 default).cost
        = Cost.zero
    ∧ ((fanOut twoInstructions serialConfig oneFailureOutcome).getD 1 default).id = 2 := by
  have hid : ∀ instr v, oneFailureOutcome instr = .fulfilled v → v.id = instr.id := by
    intro instr v h
    unfold oneFailureOutcome at h
    by_cases hc : instr.id = 1
    · simp [hc] at h
    · simp only [hc, if_false, ite_false, SettledOutcome.fulfilled.injEq] at h
      rw [← h]
      rfl
  have h := C3_fanout_failure_isolation twoInstructions serialConfig oneFailureOutcome hid
  have hfail := h.2.2.2 0 "Error: 429" (by decide) (by decide)
  refine ⟨by simpa using h.1, hfail.1, hfail.2, ?_⟩
  have hid1 := h.2.2.1 1 (by decide)
  simpa using hid1

/-! ## C1 — serial dispatch policy -/

/-- C1 (code bug): with the serial policy selected (`serialFanOut = true`)
over two instructions, the dispatch trace of the code as written starts
every participant call before any has settled, so the serial-dispatch
property the spec claims (each call starting only after the previous
finished) is false; moreover the trace is identical for every config —
`fanOut` never consults `config.serialFanOut`. -/
theorem C1_serial_policy_not_implemented :
    serialConfig.serialFanOut = true
    ∧ serialDispatchCheck twoInstructions
        (fanOutDispatchTrace twoInstructions serialConfig [1, 2]) = false
    ∧ ∀ cfg, fanOutDispatchTrace twoInstructions cfg [1, 2]
        = fanOutDispatchTrace twoInstructions serialConfig [1, 2] :=
  ⟨rfl, by decide, fun _ => rfl⟩

/-! ## C9 — expansion output validation -/

/-- C9 counterexample: with target perspective count 3, a success payload
parsing to two instructions is returned as-is — no StageError is raised and
the stage does not return exactly 3 records, refuting "exactly N
Instruction records with ids 1..N". -/
theorem C9_counterexample_count_unchecked :
    expand 3 twoInstructionMessage
      = .ok twoInstructions (expandCostOf twoInstructionMessage)
    ∧ twoInstructions.length ≠ 3 := by
  exact ⟨rfl, by decide⟩

/-- C9 amended: the expansion stage raises a fatal StageError (a throw that
nothing at this layer retries) on a payload that fails to parse, parses to
zero instructions, or on a non-success result; otherwise it returns exactly
the instruction list parsed from the payload — its length and ids are not
validated against the target perspective count. -/
theorem C9_amended_expand_behaviour (targetPerspectives : Nat)
    (msg : ExpandResultMessage) :
    (msg.subtype = "success" → msg.structuredOutput = none → msg.resultParse = none →
      expand targetPerspectives msg = .stageError "Unexpected token in JSON")
    ∧ (∀ data, msg.subtype = "success" → msg.structuredOutput = some data →
        data.instructions.getD [] = [] →
        expand targetPerspectives msg
          = .stageError "Expansion returned zero instructions")
    ∧ (∀ data l, msg.subtype = "success" → msg.structuredOutput = some data →
        data.instructions = some l → l ≠ [] →
        expand targetPerspectives msg = .ok l (expandCostOf msg))
    ∧ (∀ data l, msg.subtype = "success" → msg.structuredOutput = none →
        msg.resultParse = some data → data.instructions = some l → l ≠ [] →
        expand targetPerspectives msg = .ok l (expandCostOf msg))
    ∧ (msg.subtype ≠ "success" →
        expand targetPerspectives msg
          = .stageError ("Expansion failed: " ++ msg.subtype)) := by
  refine ⟨?_, ?_, ?_, ?_, ?_⟩
  · intro hsub hso hrp
    unfold expand
    simp [hsub, hso, hrp]
  · intro data hsub hso hinstr
    unfold expand
    simp [hsub, hso, hinstr]
  · intro data l hsub hso hinstr hl
    unfold expand
    simp [hsub, hso, hinstr, List.length_eq_zero, hl]
  · intro data l hsub hso hrp hinstr hl
    unfold expand
    simp [hsub, hso, hrp, hinstr, List.length_eq_zero, hl]
  · intro hsub
    unfold expand
    simp [hsub]

/-- C9 witness: the amended theorem applied to the concrete two-instruction
success payload with target count 3. -/
theorem C9_amended_expand_behaviour_witness :
    expand 3 twoInstructionMessage
      = .ok twoInstructions (expandCostOf twoInstructionMessage) :=
  (C9_amended_expand_behaviour 3 twoInstructionMessage).2.2.1
    { instructions := some twoInstructions } twoInstructions rfl rfl rfl (by decide)

/-! ## C10 — bounded tool-use loop -/

lemma accumulatedCost_succ (responses : Nat → ApiResponse) (model : String) (n : Nat) :
    accumulatedCost responses model (n + 1)
      = accumulateCost (accumulatedCost responses model n) (responses n).usage model := by
  unfold accumulatedCost
  rw [List.range_succ, List.foldl_append]
  rfl

lemma singleCallLoop_congr (responses responses' : Nat → ApiResponse) (model : String)
    (h : ∀ i, i < MAX_TOOL_ITERATIONS → responses i = responses' i) :
    ∀ fuel j c, MAX_TOOL_ITERATIONS - j = fuel →
      singleCallLoop responses model j c = singleCallLoop responses' model j c := by
  intro fuel
  induction fuel with
  | zero =>
    intro j c hj
    have hge : ¬ j < MAX_TOOL_ITERATIONS := by omega
    unfold singleCallLoop
    rw [dif_neg hge, dif_neg hge]
  | succ n ih =>
    intro j c hj
    have hlt : j < MAX_TOOL_ITERATIONS := by omega
    unfold singleCallLoop
    rw [dif_pos hlt, dif_pos hlt]
    rw [← h j hlt]
    by_cases hstop : (responses j).stop_reason ≠ "tool_use"
    · rw [if_pos hstop, if_pos hstop]
    · rw [if_neg hstop, if_neg hstop]
      exact ih (j + 1) _ (by omega)

lemma singleCallLoop_all_tool (responses : Nat → ApiResponse) (model : String)
    (hall : ∀ i, i < MAX_TOOL_ITERATIONS → (responses i).stop_reason = "tool_use") :
    ∀ fuel j, MAX_TOOL_ITERATIONS - j = fuel → j ≤ MAX_TOOL_ITERATIONS →
      singleCallLoop responses model j (accumulatedCost responses model j)
        = (maxIterationsText, accumulatedCost responses model MAX_TOOL_ITERATIONS) := by
  intro fuel
  induction fuel with
  | zero =>
    intro j hj hle
    have hj' : j = MAX_TOOL_ITERATIONS := by omega
    subst hj'
    unfold singleCallLoop
    rw [dif_neg (by omega)]
  | succ n ih =>
    intro j hj hle
    have hlt : j < MAX_TOOL_ITERATIONS := by omega
    unfold singleCallLoop
    rw [dif_pos hlt]
    simp only []
    have hstop : ¬ (responses j).stop_reason ≠ "tool_use" := by
      simp [hall j hlt]
    rw [if_neg hstop]
    rw [← accumulatedCost_succ]
    exact ih (j + 1) (by omega) (by omega)

lemma singleCallLoop_first_non_tool (responses : Nat → ApiResponse) (model : String)
    (k : Nat) (hk : k < MAX_TOOL_ITERATIONS)
    (hbefore : ∀ i, i < k → (responses i).stop_reason = "tool_use")
    (hstop : (responses k).stop_reason ≠ "tool_use") :
    ∀ fuel j, k - j = fuel → j ≤ k →
      singleCallLoop responses model j (accumulatedCost responses model j)
        = (responseTextOf (responses k), accumulatedCost responses model (k + 1)) := by
  intro fuel
  induction fuel with
  | zero =>
    intro j hj hle
    have hj' : j = k := by omega
    subst hj'
    unfold singleCallLoop
    rw [dif_pos hk]
    simp only []
    rw [if_pos hstop, ← accumulatedCost_succ]
  | succ n ih =>
    intro j hj hle
    have hjk : j < k := by omega
    have hlt : j < MAX_TOOL_ITERATIONS := by omega
    unfold singleCallLoop
    rw [dif_pos hlt]
    simp only []
    have hstopj : ¬ (responses j).stop_reason ≠ "tool_use" := by
      simp [hbefore j hjk]
    rw [if_neg hstopj]
    rw [← accumulatedCost_succ]
    exact ih (j + 1) (by omega) (by omega)

/-- C10: the tool-use loop performs at most MAX_TOOL_ITERATIONS = 10
iterations — its result depends only on the first 10 model responses; if
every response keeps requesting tools, the call terminates with the
bounded-iteration-exceeded finding and the cost accumulated over all 10
iterations; and on the first non-tool_use response (iteration k), it
returns that response's text with the cost accumulated over exactly the
k+1 iterations performed. -/
theorem C10_bounded_tool_loop (responses : Nat → ApiResponse) (model : String) :
    (∀ responses' : Nat → ApiResponse,
       (∀ i, i < MAX_TOOL_ITERATIONS → responses i = responses' i) →
       singleCallWithTools responses model = singleCallWithTools responses' model)
    ∧ ((∀ i, i < MAX_TOOL_ITERATIONS → (responses i).stop_reason = "tool_use") →
       singleCallWithTools responses model
         = (maxIterationsText, accumulatedCost responses model MAX_TOOL_ITERATIONS))
    ∧ (∀ k, k < MAX_TOOL_ITERATIONS →
       (∀ i, i < k → (responses i).stop_reason = "tool_use") →
       (responses k).stop_reason ≠ "tool_use" →
       singleCallWithTools responses model
         = (responseTextOf (responses k), accumulatedCost responses model (k + 1))) := by
  have h0 : accumulatedCost responses model 0 = Cost.zero := rfl
  refine ⟨?_, ?_, ?_⟩
  · intro responses' h
    unfold singleCallWithTools
    exact singleCallLoop_congr responses responses' model h MAX_TOOL_ITERATIONS 0 Cost.zero rfl
  · intro hall
    unfold singleCallWithTools
    rw [← h0]
    exact singleCallLoop_all_tool responses model hall MAX_TOOL_ITERATIONS 0 rfl (by omega)
  · intro k hk hbefore hstop
    unfold singleCallWithTools
    rw [← h0]
    exact singleCallLoop_first_non_tool responses model k hk hbefore hstop k 0 rfl (by omega)

/-- C10 witness: a model that always requests tools hits the cap — the
bounded-iteration finding comes back with the cost accumulated over all 10
iterations. -/
theorem C10_bounded_tool_loop_witness :
    singleCallWithTools alwaysToolUseResponses "claude-haiku-4-5"
      = (maxIterationsText,
         accumulatedCost alwaysToolUseResponses "claude-haiku-4-5" MAX_TOOL_ITERATIONS) :=
  (C10_bounded_tool_loop alwaysToolUseResponses "claude-haiku-4-5").2.1
    (fun _ _ => rfl)

end MiloAgent
